import Mathlib

/-
  Verification development for the Enterprise EFI chain-loader
  (src/src/main.c): configuration resolution and boot hand-off pipeline.

  The C code is shallowly embedded: CHAR8* strings become `String`,
  NULL-able pointers and the possibly-unassigned fields of the
  zero-allocated `LinuxBootOption` become `Option String`, the
  entry-processing while-loop of `ReadConfigurationFile` becomes a fold
  over the list of parsed (key, value) pairs, and EFI status words become
  `Nat` with the high bit marking errors (the `EFI_ERROR` macro).
-/

namespace Enterprise

/-- The `LinuxBootOption` record of main.h, as used by main.c.
`AllocateZeroPool` leaves every pointer field NULL, which we model as
`none`; an assigned `CHAR8*` string is `some s`. -/
structure LinuxBootOption where
  distro_family : Option String
  kernel_path : Option String
  initrd_path : Option String
  boot_folder : Option String
deriving Repr, DecidableEq

/-- The zero-initialized record produced by `AllocateZeroPool`. -/
def LinuxBootOption.zero : LinuxBootOption :=
  { distro_family := none, kernel_path := none, initrd_path := none, boot_folder := none }

/-- `KernelLocationForDistributionName` (main.c:224-234).  Returns the
kernel path and, as the second component, the value stored through the
OUT parameter `boot_folder` — `none` when the C function leaves the out
parameter unassigned (the unrecognized-name branch). -/
def KernelLocationForDistributionName (name : String) : String × Option String :=
  if name = "Debian" then ("/live/vmlinuz", some "live")
  else if name = "Ubuntu" ∨ name = "Mint" then ("/casper/vmlinuz", some "casper")
  else ("", none)

/-- `InitRDLocationForDistributionName` (main.c:236-244). -/
def InitRDLocationForDistributionName (name : String) : String :=
  if name = "Debian" then "/live/initrd.img"
  else if name = "Ubuntu" ∨ name = "Mint" then "/casper/initrd.lz"
  else ""

/-- A family name the catalog recognizes (exact, case-sensitive match). -/
def recognizedFamily (name : String) : Bool :=
  name == "Debian" || name == "Ubuntu" || name == "Mint"

/-- Operator-visible diagnostics printed by `ReadConfigurationFile`. -/
inductive Diag where
  | readError : Diag
  | unsupportedFamily : String → Diag
  | unrecognizedKey : String → Diag
deriving Repr, DecidableEq

/-- The mutable state of the `ReadConfigurationFile` loop: the record
under construction, the local `CHAR8 *boot_folder` variable (`none`
while it is still uninitialized), and the diagnostics printed so far. -/
structure BuildState where
  opts : LinuxBootOption
  bootFolderLocal : Option String
  diags : List Diag
deriving Repr, DecidableEq

/-- The value of the local `boot_folder` variable after a call to
`KernelLocationForDistributionName`: assigned for a recognized family,
otherwise it keeps whatever it held before. -/
def familyBootFolder (st : BuildState) (value : String) : Option String :=
  match (KernelLocationForDistributionName value).2 with
  | some b => some b
  | none => st.bootFolderLocal

/-- One iteration of the `ReadConfigurationFile` loop body
(main.c:185-219), for the parsed pair `(key, value)`.  An `Except.error`
models the early `return NULL` (after `FreePool`) of the
unsupported-family branch, carrying the diagnostics printed up to and
including the "not supported" message. -/
def processEntry (st : BuildState) (key value : String) : Except (List Diag) BuildState :=
  if key = "family" then
    if (KernelLocationForDistributionName value).1 = "" ∨
        InitRDLocationForDistributionName value = "" then
      Except.error (st.diags ++ [Diag.unsupportedFamily value])
    else
      Except.ok
        { opts :=
            { distro_family := some value,
              kernel_path := some (KernelLocationForDistributionName value).1,
              initrd_path := some (InitRDLocationForDistributionName value),
              boot_folder := familyBootFolder st value },
          bootFolderLocal := familyBootFolder st value,
          diags := st.diags }
  else if key = "kernel" then
    Except.ok { st with opts := { st.opts with kernel_path := some value } }
  else if key = "initrd" then
    Except.ok { st with opts := { st.opts with initrd_path := some value } }
  else if key = "root" then
    Except.ok { st with opts := { st.opts with boot_folder := some value } }
  else
    Except.ok { st with diags := st.diags ++ [Diag.unrecognizedKey key] }

/-- The whole `while (GetConfigurationKeyAndValue(...))` loop, folded
over the ordered list of parsed entries. -/
def processEntries : BuildState → List (String × String) → Except (List Diag) BuildState
  | st, [] => Except.ok st
  | st, e :: es =>
    match processEntry st e.1 e.2 with
    | Except.error d => Except.error d
    | Except.ok st2 => processEntries st2 es

/-- The state at the top of `ReadConfigurationFile`: a zero-allocated
record, an uninitialized `boot_folder` local, and — when `FileRead`
returned zero bytes — the "Couldn't read configuration information"
message already printed (main.c:179-181; note the code only prints and
does not return early there). -/
def initialState (readBytes : Nat) : BuildState :=
  { opts := LinuxBootOption.zero,
    bootFolderLocal := none,
    diags := if readBytes = 0 then [Diag.readError] else [] }

/-- `ReadConfigurationFile` (main.c:174-222) over an already-parsed
entry list: returns the built record (`none` models the NULL return of
the unsupported-family branch) together with the printed diagnostics. -/
def buildBootOption (readBytes : Nat) (entries : List (String × String)) :
    Option LinuxBootOption × List Diag :=
  match processEntries (initialState readBytes) entries with
  | Except.error d => (none, d)
  | Except.ok st => (some st.opts, st.diags)

/-- Modelled from the spec: `GetConfigurationKeyAndValue` lives in
utils.c, which is not under src/.  Per the spec (section 4.1 and 6) the
buffer is `key=value` lines; blank lines and fragments without a
delimiter are skipped permissively; end of buffer is normal exhaustion.
`splitLinesAux` splits the character list at newlines. -/
def splitLinesAux : List Char → List Char → List (List Char)
  | [], acc => [acc.reverse]
  | c :: cs, acc =>
    if c = '\n' then acc.reverse :: splitLinesAux cs []
    else splitLinesAux cs (c :: acc)

/-- Modelled from the spec: split one configuration line at its first
`=` delimiter; a line with no delimiter is not a key/value pair. -/
def splitAtEq : List Char → Option (List Char × List Char)
  | [] => none
  | c :: cs =>
    if c = '=' then some ([], cs)
    else
      match splitAtEq cs with
      | none => none
      | some kv => some (c :: kv.1, kv.2)

/-- Modelled from the spec: the full tokenization performed by repeated
`GetConfigurationKeyAndValue` calls — ordered `key=value` pairs, with
blank or delimiter-free lines skipped. -/
def parseConfig (contents : String) : List (String × String) :=
  (splitLinesAux contents.data []).filterMap fun line =>
    match splitAtEq line with
    | none => none
    | some kv => some (String.mk kv.1, String.mk kv.2)

/-- `ReadConfigurationFile` from the raw configuration file contents:
`FileRead` yields the byte count (zero for an empty read) and the
buffer, which the loop then tokenizes. -/
def readConfigurationFile (contents : String) : Option LinuxBootOption × List Diag :=
  buildBootOption contents.length (parseConfig contents)

/-! ### EFI status words -/

/-- The sign bit of a 64-bit `EFI_STATUS`. -/
def MAX_BIT : Nat := 2 ^ 63

def EFI_SUCCESS : Nat := 0

def EFI_LOAD_ERROR : Nat := MAX_BIT + 1

/-- The `EFI_ERROR` macro: the status word has its high bit set. -/
def EFI_ERROR (s : Nat) : Bool := decide (MAX_BIT ≤ s)

/-! ### efi_main pre-flight and menu gating (main.c:76-118) -/

def configpath : String := "\\efi\\boot\\.MLUL-Live-USB"

def bootpath : String := "\\efi\\boot\\boot.efi"

def isopath : String := "\\efi\\boot\\boot.iso"

def persistencepath : String := "\\casper-rw"

/-- Observable outcome of the pre-flight portion of `efi_main`:
whether `DisplayMenu` ran, the returned status, whether the persistence
check dereferenced the local `result` pointer, and whether `result` was
a valid (assigned, non-NULL) `LinuxBootOption` at that moment. -/
structure EfiMainOutcome where
  menuInvoked : Bool
  status : Nat
  resultReadDuringNotice : Bool
  resultValidAtNotice : Bool
  noticeShown : Bool
deriving Repr, DecidableEq

/-- `efi_main` from line 76 on (the earlier image/root-dir steps are
assumed successful, as the claims concern the pre-flight checks).
`fs p` is `FileExists(root_dir, p)`; `contents` is what a read of the
configuration file returns.  The local `result` variable is
`Option (Option LinuxBootOption)`: `none` while it is still
uninitialized, `some r` once `ReadConfigurationFile`'s return value `r`
has been assigned.  Note the missing-config branch (main.c:80-81) only
prints and does not clear `can_continue`, and the persistence check
(main.c:101-103) evaluates `strcmpa` on `result->distro_family` before
it tests `can_continue`. -/
def efiMainCore (fs : String → Bool) (contents : String) : EfiMainOutcome :=
  let resultVar : Option (Option LinuxBootOption) :=
    if fs configpath then some (readConfigurationFile contents).1 else none
  let canContinue : Bool :=
    match resultVar with
    | some none => false
    | _ => true
  let canContinue : Bool := canContinue && fs bootpath
  let canContinue : Bool := canContinue && fs isopath
  let casper : Bool := fs persistencepath
  let validAtNotice : Bool :=
    match resultVar with
    | some (some _) => true
    | _ => false
  let famUbuntu : Bool :=
    match resultVar with
    | some (some bo) => bo.distro_family == some "Ubuntu"
    | _ => false
  { menuInvoked := canContinue,
    status := if canContinue then EFI_SUCCESS else EFI_LOAD_ERROR,
    resultReadDuringNotice := casper,
    resultValidAtNotice := validAtNotice,
    noticeShown := casper && famUbuntu && canContinue }

/-- A filesystem in which every file exists except the listed paths. -/
def fsWithout (missing : List String) : String → Bool :=
  fun p => !(missing.contains p)

/-! ### BootLinuxWithOptions (main.c:120-172) -/

def strlena (s : String) : Nat := s.length

/-- One `efi_set_variable` call: vendor GUID, variable name, value, and
the size argument in bytes. -/
structure VarWrite where
  guid : String
  name : String
  value : String
  size : Nat
deriving Repr, DecidableEq

/-- The GUID every hand-off variable is written under (main.c:31). -/
def grubVariableGuid : String := "8BE4DF61-93CA-11d2-AA0D-00E098032B8C"

/-- Modelled from the spec: `efi_set_variable` (outside src/) stores a
length-prefixed byte blob; main.c passes `sizeof(CHAR8) * strlena(s) + 1`
as the size, i.e. the string length plus its NUL terminator. -/
def mkWrite (name value : String) : VarWrite :=
  { guid := grubVariableGuid, name := name, value := value, size := strlena value + 1 }

/-- Outcome of `BootLinuxWithOptions`: the sequence of variable writes
performed, in program order, and the returned status. -/
structure BootResult where
  writes : List VarWrite
  status : Nat
deriving Repr, DecidableEq

/-- `BootLinuxWithOptions` (main.c:120-172).  `params` is the raw boot
parameter string (`UTF16toASCII` is the identity on the ASCII strings
modelled here); `contents` is what re-reading the configuration file
yields; `loadStatus` and `startStatus` are what `BS->LoadImage` and
`BS->StartImage` return (`StartImage` returning at all means the started
image exited).  The result is `none` on the executions the C code makes
undefined: `strlena` applied to a NULL field of the built record. -/
def BootLinuxWithOptions (params contents : String) (loadStatus startStatus : Nat) :
    Option BootResult :=
  let w0 := mkWrite "Enterprise_LinuxBootOptions" params
  match (readConfigurationFile contents).1 with
  | none => some { writes := [w0], status := EFI_LOAD_ERROR }
  | some bo =>
    match bo.kernel_path, bo.initrd_path, bo.boot_folder with
    | some kp, some ip, some bf =>
      let ws := [w0, mkWrite "Enterprise_LinuxKernelPath" kp,
                 mkWrite "Enterprise_InitRDPath" ip,
                 mkWrite "Enterprise_BootFolder" bf]
      if EFI_ERROR loadStatus then some { writes := ws, status := EFI_LOAD_ERROR }
      else if EFI_ERROR startStatus then some { writes := ws, status := EFI_LOAD_ERROR }
      else some { writes := ws, status := EFI_SUCCESS }
    | _, _, _ => none

end Enterprise

namespace Enterprise

/-! ### Helper lemmas about the builder loop -/

theorem processEntries_nil (st : BuildState) : processEntries st [] = Except.ok st := rfl

theorem processEntries_cons (st : BuildState) (e : String × String)
    (es : List (String × String)) :
    processEntries st (e :: es) =
      match processEntry st e.1 e.2 with
      | Except.error d => Except.error d
      | Except.ok st2 => processEntries st2 es := rfl

theorem processEntries_cons_ok {st st2 : BuildState} {e : String × String}
    {es : List (String × String)} (hpe : processEntry st e.1 e.2 = Except.ok st2) :
    processEntries st (e :: es) = processEntries st2 es := by
  rw [processEntries_cons, hpe]

theorem processEntries_cons_error {st : BuildState} {e : String × String}
    {es : List (String × String)} {d : List Diag}
    (hpe : processEntry st e.1 e.2 = Except.error d) :
    processEntries st (e :: es) = Except.error d := by
  rw [processEntries_cons, hpe]

theorem processEntry_kernel (st : BuildState) (v : String) :
    processEntry st "kernel" v =
      Except.ok { st with opts := { st.opts with kernel_path := some v } } := by
  unfold processEntry
  rw [if_neg (by decide), if_pos rfl]

theorem processEntry_initrd (st : BuildState) (v : String) :
    processEntry st "initrd" v =
      Except.ok { st with opts := { st.opts with initrd_path := some v } } := by
  unfold processEntry
  rw [if_neg (by decide), if_neg (by decide), if_pos rfl]

theorem processEntry_root (st : BuildState) (v : String) :
    processEntry st "root" v =
      Except.ok { st with opts := { st.opts with boot_folder := some v } } := by
  unfold processEntry
  rw [if_neg (by decide), if_neg (by decide), if_neg (by decide), if_pos rfl]

/-- Unrecognized family names are exactly the ones the catalog resolves
to an empty kernel or initrd path. -/
theorem familyEmpty_iff (v : String) :
    ((KernelLocationForDistributionName v).1 = "" ∨
        InitRDLocationForDistributionName v = "") ↔ recognizedFamily v = false := by
  by_cases h1 : v = "Debian"
  · subst h1; decide
  · by_cases h2 : v = "Ubuntu"
    · subst h2; decide
    · by_cases h3 : v = "Mint"
      · subst h3; decide
      · unfold KernelLocationForDistributionName InitRDLocationForDistributionName
          recognizedFamily
        rw [if_neg h1, if_neg (not_or.mpr ⟨h2, h3⟩), if_neg h1,
          if_neg (not_or.mpr ⟨h2, h3⟩)]
        simp [h1, h2, h3]

theorem processEntry_family_bad (st : BuildState) (v : String)
    (h : (KernelLocationForDistributionName v).1 = "" ∨
      InitRDLocationForDistributionName v = "") :
    processEntry st "family" v =
      Except.error (st.diags ++ [Diag.unsupportedFamily v]) := by
  unfold processEntry
  rw [if_pos rfl, if_pos h]

/-- Any early-error exit of the loop body is the unsupported-family
branch, and it reports an unrecognized family name. -/
theorem processEntry_error_unsupported {st : BuildState} {k v : String} {d : List Diag}
    (h : processEntry st k v = Except.error d) :
    ∃ w, recognizedFamily w = false ∧ Diag.unsupportedFamily w ∈ d := by
  unfold processEntry at h
  by_cases h1 : k = "family"
  · rw [if_pos h1] at h
    by_cases hc : (KernelLocationForDistributionName v).1 = "" ∨
        InitRDLocationForDistributionName v = ""
    · rw [if_pos hc] at h
      cases h
      exact ⟨v, (familyEmpty_iff v).mp hc, by simp⟩
    · rw [if_neg hc] at h
      exact Except.noConfusion h
  · rw [if_neg h1] at h
    by_cases h2 : k = "kernel"
    · rw [if_pos h2] at h; exact Except.noConfusion h
    · rw [if_neg h2] at h
      by_cases h3 : k = "initrd"
      · rw [if_pos h3] at h; exact Except.noConfusion h
      · rw [if_neg h3] at h
        by_cases h4 : k = "root"
        · rw [if_pos h4] at h; exact Except.noConfusion h
        · rw [if_neg h4] at h; exact Except.noConfusion h

/-- A sequence containing an unrecognized `family` entry always makes
the loop exit through the unsupported-family branch. -/
theorem processEntries_bad_family :
    ∀ (es : List (String × String)) (st : BuildState) (v : String),
      ("family", v) ∈ es → recognizedFamily v = false →
      ∃ d, processEntries st es = Except.error d ∧
        ∃ w, recognizedFamily w = false ∧ Diag.unsupportedFamily w ∈ d := by
  intro es
  induction es with
  | nil => intro st v hv; exact absurd hv (List.not_mem_nil _)
  | cons e es ih =>
    intro st v hv hbad
    cases hpe : processEntry st e.1 e.2 with
    | error d =>
      exact ⟨d, processEntries_cons_error hpe, processEntry_error_unsupported hpe⟩
    | ok stm =>
      rcases List.mem_cons.mp hv with heq | htail
      · have hfe : processEntry st "family" v = Except.ok stm := by
          rw [← heq] at hpe; exact hpe
        rw [processEntry_family_bad st v ((familyEmpty_iff v).mpr hbad)] at hfe
        exact Except.noConfusion hfe
      · obtain ⟨d, hd, hw⟩ := ih stm v htail hbad
        exact ⟨d, (processEntries_cons_ok hpe).trans hd, hw⟩

/-- The §3 invariant: kernel and initrd paths assigned and non-empty. -/
def goodPaths (o : LinuxBootOption) : Prop :=
  (∃ k, o.kernel_path = some k ∧ k ≠ "") ∧ ∃ i, o.initrd_path = some i ∧ i ≠ ""

/-- A `family` entry the loop accepts establishes the invariant. -/
theorem processEntry_family_ok_good {st st2 : BuildState} {v : String}
    (h : processEntry st "family" v = Except.ok st2) : goodPaths st2.opts := by
  unfold processEntry at h
  rw [if_pos rfl] at h
  by_cases hc : (KernelLocationForDistributionName v).1 = "" ∨
      InitRDLocationForDistributionName v = ""
  · rw [if_pos hc] at h; exact Except.noConfusion h
  · rw [if_neg hc] at h
    cases h
    push_neg at hc
    exact ⟨⟨_, rfl, hc.1⟩, ⟨_, rfl, hc.2⟩⟩

/-- Non-`family` entries whose override values are non-empty preserve
the invariant. -/
theorem processEntry_preserves_good {st st2 : BuildState} {k v : String}
    (hne : k ≠ "family") (h : processEntry st k v = Except.ok st2)
    (hkv : k = "kernel" → v ≠ "") (hiv : k = "initrd" → v ≠ "")
    (hg : goodPaths st.opts) : goodPaths st2.opts := by
  unfold processEntry at h
  rw [if_neg hne] at h
  by_cases h2 : k = "kernel"
  · rw [if_pos h2] at h
    cases h
    exact ⟨⟨v, rfl, hkv h2⟩, hg.2⟩
  · rw [if_neg h2] at h
    by_cases h3 : k = "initrd"
    · rw [if_pos h3] at h
      cases h
      exact ⟨hg.1, ⟨v, rfl, hiv h3⟩⟩
    · rw [if_neg h3] at h
      by_cases h4 : k = "root"
      · rw [if_pos h4] at h; cases h; exact hg
      · rw [if_neg h4] at h; cases h; exact hg

/-- Main invariant lemma for the loop: a successful run over entries
that include a `family` entry — or start from a good state — and whose
kernel/initrd overrides are non-empty, ends in a good state. -/
theorem processEntries_good :
    ∀ (es : List (String × String)) (st st2 : BuildState),
      processEntries st es = Except.ok st2 →
      (∀ v, ("kernel", v) ∈ es → v ≠ "") →
      (∀ v, ("initrd", v) ∈ es → v ≠ "") →
      (goodPaths st.opts ∨ ∃ v, ("family", v) ∈ es) →
      goodPaths st2.opts := by
  intro es
  induction es with
  | nil =>
    intro st st2 h _ _ hg
    cases h
    rcases hg with hgood | ⟨v, hv⟩
    · exact hgood
    · exact absurd hv (List.not_mem_nil _)
  | cons e es ih =>
    intro st st2 h hk hi hg
    cases hpe : processEntry st e.1 e.2 with
    | error d =>
      rw [processEntries_cons_error hpe] at h
      exact Except.noConfusion h
    | ok stm =>
      rw [processEntries_cons_ok hpe] at h
      apply ih stm st2 h (fun v hv => hk v (List.mem_cons_of_mem _ hv))
        (fun v hv => hi v (List.mem_cons_of_mem _ hv))
      by_cases hf : e.1 = "family"
      · left
        have hpe2 : processEntry st "family" e.2 = Except.ok stm := by
          rw [← hf]; exact hpe
        exact processEntry_family_ok_good hpe2
      · rcases hg with hgood | ⟨v, hv⟩
        · left
          refine processEntry_preserves_good hf hpe ?_ ?_ hgood
          · intro hke
            refine hk e.2 ?_
            have he : ("kernel", e.2) = e := by rw [← hke]
            rw [he]
            exact List.mem_cons_self _ _
          · intro hie
            refine hi e.2 ?_
            have he : ("initrd", e.2) = e := by rw [← hie]
            rw [he]
            exact List.mem_cons_self _ _
        · rcases List.mem_cons.mp hv with heq | htail
          · exact absurd (show e.1 = "family" by rw [← heq]) hf
          · exact Or.inr ⟨v, htail⟩

/-- Running sub-lists in sequence composes. -/
theorem processEntries_append (es1 es2 : List (String × String)) :
    ∀ st, processEntries st (es1 ++ es2) =
      match processEntries st es1 with
      | Except.error d => Except.error d
      | Except.ok st2 => processEntries st2 es2 := by
  induction es1 with
  | nil => intro st; rfl
  | cons e es ih =>
    intro st
    rw [List.cons_append]
    cases hpe : processEntry st e.1 e.2 with
    | error d =>
      rw [processEntries_cons_error hpe, processEntries_cons_error hpe]
    | ok stm =>
      rw [processEntries_cons_ok hpe, processEntries_cons_ok hpe, ih stm]

end Enterprise

namespace Enterprise

/-! ### Claim theorems -/

/-- C1 counterexample: the builder returns success on the empty entry
sequence (a readable configuration with no recognized key/value pairs),
and that success value has both `kernel_path` and `initrd_path` absent
— refuting "no successful result ever has either field empty or
absent". -/
theorem c1_counterexample :
    (buildBootOption 1 []).1 = some LinuxBootOption.zero ∧
      LinuxBootOption.zero.kernel_path = none ∧
      LinuxBootOption.zero.initrd_path = none := by decide

/-- C1 (amended): whenever the builder returns success on an entry
sequence that contains at least one `family` entry and in which every
`kernel` and `initrd` entry carries a non-empty value, the returned
BootOption has a non-empty `kernel_path` and a non-empty
`initrd_path`. -/
theorem c1_success_nonempty_paths (n : Nat) (es : List (String × String))
    (bo : LinuxBootOption) (h : (buildBootOption n es).1 = some bo)
    (hfam : ∃ v, ("family", v) ∈ es)
    (hk : ∀ v, ("kernel", v) ∈ es → v ≠ "")
    (hi : ∀ v, ("initrd", v) ∈ es → v ≠ "") :
    (∃ k, bo.kernel_path = some k ∧ k ≠ "") ∧
      ∃ i, bo.initrd_path = some i ∧ i ≠ "" := by
  unfold buildBootOption at h
  cases hpe : processEntries (initialState n) es with
  | error d => rw [hpe] at h; simp at h
  | ok st =>
    rw [hpe] at h
    simp only [Option.some.injEq] at h
    rw [← h]
    exact processEntries_good es _ st hpe hk hi (Or.inr hfam)

/-- C1 witness: the amended theorem applied to the concrete sequence
`[family=Debian]`. -/
theorem c1_success_nonempty_paths_witness :
    (∃ k, ({ distro_family := some "Debian", kernel_path := some "/live/vmlinuz",
             initrd_path := some "/live/initrd.img", boot_folder := some "live" } :
          LinuxBootOption).kernel_path = some k ∧ k ≠ "") ∧
      ∃ i, ({ distro_family := some "Debian", kernel_path := some "/live/vmlinuz",
              initrd_path := some "/live/initrd.img", boot_folder := some "live" } :
          LinuxBootOption).initrd_path = some i ∧ i ≠ "" :=
  c1_success_nonempty_paths 1 [("family", "Debian")]
    { distro_family := some "Debian", kernel_path := some "/live/vmlinuz",
      initrd_path := some "/live/initrd.img", boot_folder := some "live" }
    (by decide) ⟨"Debian", by decide⟩
    (fun v hv => by
      simp only [List.mem_singleton, Prod.mk.injEq] at hv
      exact absurd hv.1 (by decide))
    (fun v hv => by
      simp only [List.mem_singleton, Prod.mk.injEq] at hv
      exact absurd hv.1 (by decide))

/-- C2: any entry sequence containing a `family` entry with an
unrecognized value makes the build fail — no BootOption is returned —
and an unsupported-family message naming an unrecognized family is
among the printed diagnostics. -/
theorem c2_build_fails_on_bad_family (n : Nat) (es : List (String × String)) (v : String)
    (hmem : ("family", v) ∈ es) (hbad : recognizedFamily v = false) :
    (buildBootOption n es).1 = none ∧
      ∃ w, recognizedFamily w = false ∧
        Diag.unsupportedFamily w ∈ (buildBootOption n es).2 := by
  obtain ⟨d, hd, w, hw1, hw2⟩ := processEntries_bad_family es (initialState n) v hmem hbad
  unfold buildBootOption
  rw [hd]
  exact ⟨rfl, w, hw1, hw2⟩

/-- C2 witness: the sequence containing only `family=Arch`. -/
theorem c2_build_fails_on_bad_family_witness :
    (buildBootOption 1 [("family", "Arch")]).1 = none ∧
      ∃ w, recognizedFamily w = false ∧
        Diag.unsupportedFamily w ∈ (buildBootOption 1 [("family", "Arch")]).2 :=
  c2_build_fails_on_bad_family 1 [("family", "Arch")] "Arch" (by decide) (by decide)

/-- C3 (code bug): when the configuration read yields zero bytes,
`ReadConfigurationFile` prints the read-error diagnostic but still
returns the zero-initialized record as a success value instead of a
failure. -/
theorem c3_zero_read_returns_success_record :
    (readConfigurationFile "").1 = some LinuxBootOption.zero ∧
      Diag.readError ∈ (readConfigurationFile "").2 := by decide

/-- C4 (code bug): with the configuration file absent but the loader
and payload images present, `efi_main` still invokes `DisplayMenu` and
returns `EFI_SUCCESS`, because the missing-config branch only prints an
error and never clears `can_continue`. -/
theorem c4_menu_runs_without_config :
    (efiMainCore (fsWithout [configpath, persistencepath]) "").menuInvoked = true ∧
      (efiMainCore (fsWithout [configpath, persistencepath]) "").status = EFI_SUCCESS := by
  decide

/-- C5: the distribution catalog maps Debian, Ubuntu and Mint exactly
as specified, Ubuntu and Mint coincide, Debian differs from them in
every field, and every other name resolves to the empty kernel path,
empty initrd path and unassigned boot folder. -/
theorem c5_catalog :
    (KernelLocationForDistributionName "Debian" = ("/live/vmlinuz", some "live") ∧
        InitRDLocationForDistributionName "Debian" = "/live/initrd.img") ∧
      (KernelLocationForDistributionName "Ubuntu" = ("/casper/vmlinuz", some "casper") ∧
        InitRDLocationForDistributionName "Ubuntu" = "/casper/initrd.lz" ∧
        KernelLocationForDistributionName "Mint" = KernelLocationForDistributionName "Ubuntu" ∧
        InitRDLocationForDistributionName "Mint" = InitRDLocationForDistributionName "Ubuntu") ∧
      ((KernelLocationForDistributionName "Debian").1 ≠
          (KernelLocationForDistributionName "Ubuntu").1 ∧
        (KernelLocationForDistributionName "Debian").2 ≠
          (KernelLocationForDistributionName "Ubuntu").2 ∧
        InitRDLocationForDistributionName "Debian" ≠
          InitRDLocationForDistributionName "Ubuntu") ∧
      ∀ name, name ≠ "Debian" → name ≠ "Ubuntu" → name ≠ "Mint" →
        KernelLocationForDistributionName name = ("", none) ∧
        InitRDLocationForDistributionName name = "" := by
  refine ⟨by decide, by decide, by decide, ?_⟩
  intro name h1 h2 h3
  constructor
  · unfold KernelLocationForDistributionName
    rw [if_neg h1, if_neg (not_or.mpr ⟨h2, h3⟩)]
  · unfold InitRDLocationForDistributionName
    rw [if_neg h1, if_neg (not_or.mpr ⟨h2, h3⟩)]

/-- C5 witness: the unlisted name "Fedora" resolves to the fully empty
"unsupported" signal. -/
theorem c5_catalog_witness :
    KernelLocationForDistributionName "Fedora" = ("", none) ∧
      InitRDLocationForDistributionName "Fedora" = "" :=
  c5_catalog.2.2.2 "Fedora" (by decide) (by decide) (by decide)

/-- C6: a trailing `kernel` entry overwrites whatever an earlier entry
established, and concretely `family=Ubuntu` followed by
`kernel=/custom/vmlinuz` yields kernel `/custom/vmlinuz` while the
catalog initrd `/casper/initrd.lz` and boot folder `casper` remain. -/
theorem c6_override_ordering :
    (∀ (n : Nat) (es : List (String × String)) (v : String) (bo : LinuxBootOption),
        (buildBootOption n (es ++ [("kernel", v)])).1 = some bo →
        bo.kernel_path = some v) ∧
      (buildBootOption 1 [("family", "Ubuntu"), ("kernel", "/custom/vmlinuz")]).1 =
        some { distro_family := some "Ubuntu", kernel_path := some "/custom/vmlinuz",
               initrd_path := some "/casper/initrd.lz", boot_folder := some "casper" } := by
  constructor
  · intro n es v bo h
    unfold buildBootOption at h
    rw [processEntries_append] at h
    cases hpe : processEntries (initialState n) es with
    | error d => rw [hpe] at h; simp at h
    | ok stm =>
      have h2 : processEntries stm [("kernel", v)] =
          Except.ok { stm with opts := { stm.opts with kernel_path := some v } } :=
        processEntries_cons_ok (processEntry_kernel stm v)
      rw [hpe] at h
      simp only [h2, Option.some.injEq] at h
      rw [← h]
  · decide

/-- C6 witness: the override-ordering part applied to the concrete
sequence of the claim. -/
theorem c6_override_ordering_witness :
    ({ distro_family := some "Ubuntu", kernel_path := some "/custom/vmlinuz",
       initrd_path := some "/casper/initrd.lz", boot_folder := some "casper" } :
        LinuxBootOption).kernel_path = some "/custom/vmlinuz" :=
  c6_override_ordering.1 1 [("family", "Ubuntu")] "/custom/vmlinuz"
    { distro_family := some "Ubuntu", kernel_path := some "/custom/vmlinuz",
      initrd_path := some "/casper/initrd.lz", boot_folder := some "casper" }
    (by decide)

end Enterprise

namespace Enterprise

/-- C7: whenever the configuration resolves, `BootLinuxWithOptions`
performs exactly four variable writes, all under the one fixed vendor
GUID, named raw-parameters / kernel path / initrd path / boot folder in
that order, each sized `strlen + 1` so the terminating NUL is included;
and for the configuration `family=Debian\n` with empty parameters the
persisted strings are exactly `/live/vmlinuz`, `/live/initrd.img` and
`live`. -/
theorem c7_persists_four_variables :
    (∀ (params contents : String) (ls ss : Nat) (r : BootResult),
        BootLinuxWithOptions params contents ls ss = some r →
        ((readConfigurationFile contents).1).isSome = true →
        r.writes.map (fun w => (w.guid, w.name)) =
            [(grubVariableGuid, "Enterprise_LinuxBootOptions"),
             (grubVariableGuid, "Enterprise_LinuxKernelPath"),
             (grubVariableGuid, "Enterprise_InitRDPath"),
             (grubVariableGuid, "Enterprise_BootFolder")] ∧
          ∀ w ∈ r.writes, w.size = strlena w.value + 1) ∧
      BootLinuxWithOptions "" "family=Debian\n" 0 0 =
        some { writes := [mkWrite "Enterprise_LinuxBootOptions" "",
                          mkWrite "Enterprise_LinuxKernelPath" "/live/vmlinuz",
                          mkWrite "Enterprise_InitRDPath" "/live/initrd.img",
                          mkWrite "Enterprise_BootFolder" "live"],
               status := EFI_SUCCESS } := by
  constructor
  · intro params contents ls ss r h hsome
    simp only [BootLinuxWithOptions] at h
    split at h
    · simp_all
    · split at h
      · split at h
        · injection h with h
          subst h
          refine ⟨rfl, ?_⟩
          intro w hw
          simp only [List.mem_cons, List.not_mem_nil, or_false] at hw
          rcases hw with rfl | rfl | rfl | rfl <;> rfl
        · split at h
          · injection h with h
            subst h
            refine ⟨rfl, ?_⟩
            intro w hw
            simp only [List.mem_cons, List.not_mem_nil, or_false] at hw
            rcases hw with rfl | rfl | rfl | rfl <;> rfl
          · injection h with h
            subst h
            refine ⟨rfl, ?_⟩
            intro w hw
            simp only [List.mem_cons, List.not_mem_nil, or_false] at hw
            rcases hw with rfl | rfl | rfl | rfl <;> rfl
      · exact Option.noConfusion h
  · decide

/-- C7 witness: the general part applied to the end-to-end Debian
scenario. -/
theorem c7_persists_four_variables_witness :
    ({ writes := [mkWrite "Enterprise_LinuxBootOptions" "",
                  mkWrite "Enterprise_LinuxKernelPath" "/live/vmlinuz",
                  mkWrite "Enterprise_InitRDPath" "/live/initrd.img",
                  mkWrite "Enterprise_BootFolder" "live"],
       status := EFI_SUCCESS } : BootResult).writes.map (fun w => (w.guid, w.name)) =
        [(grubVariableGuid, "Enterprise_LinuxBootOptions"),
         (grubVariableGuid, "Enterprise_LinuxKernelPath"),
         (grubVariableGuid, "Enterprise_InitRDPath"),
         (grubVariableGuid, "Enterprise_BootFolder")] ∧
      ∀ w ∈ ({ writes := [mkWrite "Enterprise_LinuxBootOptions" "",
                          mkWrite "Enterprise_LinuxKernelPath" "/live/vmlinuz",
                          mkWrite "Enterprise_InitRDPath" "/live/initrd.img",
                          mkWrite "Enterprise_BootFolder" "live"],
               status := EFI_SUCCESS } : BootResult).writes,
        w.size = strlena w.value + 1 :=
  c7_persists_four_variables.1 "" "family=Debian\n" 0 0
    { writes := [mkWrite "Enterprise_LinuxBootOptions" "",
                 mkWrite "Enterprise_LinuxKernelPath" "/live/vmlinuz",
                 mkWrite "Enterprise_InitRDPath" "/live/initrd.img",
                 mkWrite "Enterprise_BootFolder" "live"],
      status := EFI_SUCCESS } (by decide) (by decide)

/-- C8 counterexample: the started image exits cleanly (`StartImage`
returns `EFI_SUCCESS`), control returns to the chain loader, and
`BootLinuxWithOptions` returns a success status, not a failure —
refuting "an explicit exit is treated as equivalent to a start
failure". -/
theorem c8_counterexample :
    (BootLinuxWithOptions "" "family=Debian\n" EFI_SUCCESS EFI_SUCCESS).map
        BootResult.status = some EFI_SUCCESS ∧
      EFI_ERROR EFI_SUCCESS = false := by decide

/-- C8 (amended): if the started image exits with an error status the
outcome is reported as a start failure and `BootLinuxWithOptions`
returns `EFI_LOAD_ERROR`; but an exit with a success status makes
`BootLinuxWithOptions` return `EFI_SUCCESS` to its caller. -/
theorem c8_error_exit_amended :
    (∀ (params contents : String) (ls ss : Nat) (r : BootResult),
        BootLinuxWithOptions params contents ls ss = some r →
        EFI_ERROR ss = true → r.status = EFI_LOAD_ERROR) ∧
      (BootLinuxWithOptions "" "family=Debian\n" EFI_SUCCESS EFI_SUCCESS).map
        BootResult.status = some EFI_SUCCESS := by
  constructor
  · intro params contents ls ss r h hss
    simp only [BootLinuxWithOptions] at h
    split at h
    · injection h with h
      subst h
      rfl
    · split at h
      · split at h
        · injection h with h
          subst h
          rfl
        · injection h with h
          subst h
          rfl
      · exact Option.noConfusion h
  · decide

/-- C8 witness: an error-status exit on the Debian scenario yields
`EFI_LOAD_ERROR`. -/
theorem c8_error_exit_amended_witness :
    EFI_ERROR EFI_LOAD_ERROR = true ∧
      ({ writes := [mkWrite "Enterprise_LinuxBootOptions" "",
                    mkWrite "Enterprise_LinuxKernelPath" "/live/vmlinuz",
                    mkWrite "Enterprise_InitRDPath" "/live/initrd.img",
                    mkWrite "Enterprise_BootFolder" "live"],
         status := EFI_LOAD_ERROR } : BootResult).status = EFI_LOAD_ERROR :=
  ⟨by decide,
    c8_error_exit_amended.1 "" "family=Debian\n" 0 EFI_LOAD_ERROR
      { writes := [mkWrite "Enterprise_LinuxBootOptions" "",
                   mkWrite "Enterprise_LinuxKernelPath" "/live/vmlinuz",
                   mkWrite "Enterprise_InitRDPath" "/live/initrd.img",
                   mkWrite "Enterprise_BootFolder" "live"],
        status := EFI_LOAD_ERROR } (by decide) (by decide)⟩

/-- C9 (code bug): when `\casper-rw` exists and the configuration file
is absent, the persistence-notice check still dereferences the local
`result` pointer (the `strcmpa` operand is evaluated before
`can_continue` in the `&&` chain), yet `result` was never assigned —
refuting the claimed safety property. -/
theorem c9_uninitialized_result_read :
    (efiMainCore (fsWithout [configpath]) "").resultReadDuringNotice = true ∧
      (efiMainCore (fsWithout [configpath]) "").resultValidAtNotice = false ∧
      (efiMainCore (fsWithout [configpath]) "").menuInvoked = true := by decide

/-- C10: on every defined call of `BootLinuxWithOptions` the raw
parameter string is the first persisted variable, and when re-reading
the configuration fails the call returns `EFI_LOAD_ERROR` with the
parameter variable — and only it — already written. -/
theorem c10_param_persisted_first :
    (∀ (params contents : String) (ls ss : Nat) (r : BootResult),
        BootLinuxWithOptions params contents ls ss = some r →
        r.writes.head? = some (mkWrite "Enterprise_LinuxBootOptions" params)) ∧
      ∀ (params contents : String) (ls ss : Nat),
        (readConfigurationFile contents).1 = none →
        BootLinuxWithOptions params contents ls ss =
          some { writes := [mkWrite "Enterprise_LinuxBootOptions" params],
                 status := EFI_LOAD_ERROR } := by
  constructor
  · intro params contents ls ss r h
    simp only [BootLinuxWithOptions] at h
    split at h
    · injection h with h
      subst h
      rfl
    · split at h
      · split at h
        · injection h with h
          subst h
          rfl
        · split at h
          · injection h with h
            subst h
            rfl
          · injection h with h
            subst h
            rfl
      · exact Option.noConfusion h
  · intro params contents ls ss hnone
    simp only [BootLinuxWithOptions, hnone]

/-- C10 witness: with the invalid distribution `family=Arch`, the call
fails with a load error and the parameter variable has already been
written. -/
theorem c10_param_persisted_first_witness :
    BootLinuxWithOptions "quiet splash" "family=Arch\n" 0 0 =
      some { writes := [mkWrite "Enterprise_LinuxBootOptions" "quiet splash"],
             status := EFI_LOAD_ERROR } :=
  c10_param_persisted_first.2 "quiet splash" "family=Arch\n" 0 0 (by decide)

end Enterprise
